import Mathlib

/-!
Shallow embedding of the KNX datapoint-type codec (`knx/dpt/types.go`).

Go `float32` values are modelled as exact rationals (`ℚ`); Go bytes are
`Nat` values below 256; a wire buffer is a `List Nat`.  An `Unpack` method
mutates its receiver through a pointer and returns an `error`; it is
modelled as a function from the buffer and the old receiver value to the
pair (new receiver value, optional error).

The primitive encoders (`packB1`, `unpackB1`, `packU8`, `unpackU8`,
`unpackF16`) live in `formats.go`, which is not part of the given
sources; they are modelled from the specification and marked as such.
-/

/-- Errors produced by the codec: a wrong buffer length, or a decoded
value outside the declared semantic range. -/
inductive DPTError where
  | lengthError
  | rangeError
  deriving DecidableEq, Repr

/-- Modelled from the spec: `packB1` (in `formats.go`, not under the given
sources) produces a single byte whose least significant bit equals the
boolean: `1` for true, `0` for false. -/
def packB1 (value : Bool) : List Nat :=
  [if value then 1 else 0]

/-- Modelled from the spec: `unpackB1` (in `formats.go`, not under the
given sources) fails with `LengthError` if the input length is not 1,
otherwise interprets the least significant bit of the byte as the
boolean.  On failure the target is not written. -/
def unpackB1 (data : List Nat) : Except DPTError Bool :=
  match data with
  | [d0] => .ok (d0 % 2 == 1)
  | _ => .error .lengthError

/-- Modelled from the spec: `packU8` (in `formats.go`, not under the given
sources) is a direct 1:1 copy of the 8-bit value into a single byte. -/
def packU8 (value : Nat) : List Nat :=
  [value]

/-- Modelled from the spec: `unpackU8` (in `formats.go`, not under the
given sources) fails with `LengthError` if the input length is not 1,
otherwise returns the byte value unchanged.  On failure the target is
not written. -/
def unpackU8 (data : List Nat) : Except DPTError Nat :=
  match data with
  | [d0] => .ok d0
  | _ => .error .lengthError

/-- Modelled from the spec: `unpackF16` (in `formats.go`, not under the
given sources) decodes the KNX 2-byte float: fails with `LengthError` if
the input length is not 2; otherwise bit 15 is the sign, bits 14 to 11
are the exponent, bits 10 to 0 the mantissa, read here with the
two's-complement mantissa convention, and the value is
`0.01 * signed_mantissa * 2 ^ exponent`.  On failure the target is not
written. -/
def unpackF16 (data : List Nat) : Except DPTError ℚ :=
  match data with
  | [d0, d1] =>
    let m0 : Nat := (d0 % 8) * 256 + d1 % 256
    let m : Int := if d0 / 128 % 2 = 1 then (m0 : Int) - 2048 else (m0 : Int)
    let e : Nat := d0 / 8 % 16
    .ok ((m : ℚ) * (1 / 100) * 2 ^ e)
  | _ => .error .lengthError

/-- Go's conversion of a non-negative `float32` to `uint8`, which
truncates the fractional part.  All call sites clip the value into
`[0, 255]` first. -/
def float32ToUint8 (q : ℚ) : Nat :=
  (⌊q⌋).toNat

/-- DPT 1.001 / Switch: underlying Go type `bool`. -/
abbrev DPT_1001 := Bool

def DPT_1001.Pack (d : DPT_1001) : List Nat :=
  packB1 d

def DPT_1001.Unpack (data : List Nat) (d : DPT_1001) : DPT_1001 × Option DPTError :=
  match unpackB1 data with
  | .ok b => (b, none)
  | .error e => (d, some e)

def DPT_1001.Unit (_ : DPT_1001) : String :=
  ""

def DPT_1001.toString (d : DPT_1001) : String :=
  if d then "On" else "Off"

/-- DPT 1.002 / Bool: underlying Go type `bool`. -/
abbrev DPT_1002 := Bool

def DPT_1002.Pack (d : DPT_1002) : List Nat :=
  packB1 d

def DPT_1002.Unpack (data : List Nat) (d : DPT_1002) : DPT_1002 × Option DPTError :=
  match unpackB1 data with
  | .ok b => (b, none)
  | .error e => (d, some e)

def DPT_1002.Unit (_ : DPT_1002) : String :=
  ""

def DPT_1002.toString (d : DPT_1002) : String :=
  if d then "True" else "False"

/-- DPT 1.003 / Enable: underlying Go type `bool`. -/
abbrev DPT_1003 := Bool

def DPT_1003.Pack (d : DPT_1003) : List Nat :=
  packB1 d

def DPT_1003.Unpack (data : List Nat) (d : DPT_1003) : DPT_1003 × Option DPTError :=
  match unpackB1 data with
  | .ok b => (b, none)
  | .error e => (d, some e)

def DPT_1003.Unit (_ : DPT_1003) : String :=
  ""

def DPT_1003.toString (d : DPT_1003) : String :=
  if d then "Enable" else "Disable"

/-- DPT 1.009 / OpenClose: underlying Go type `bool`. -/
abbrev DPT_1009 := Bool

def DPT_1009.Pack (d : DPT_1009) : List Nat :=
  packB1 d

def DPT_1009.Unpack (data : List Nat) (d : DPT_1009) : DPT_1009 × Option DPTError :=
  match unpackB1 data with
  | .ok b => (b, none)
  | .error e => (d, some e)

def DPT_1009.Unit (_ : DPT_1009) : String :=
  ""

def DPT_1009.toString (d : DPT_1009) : String :=
  if d then "Close" else "Open"

/-- DPT 1.010 / Start: underlying Go type `bool`. -/
abbrev DPT_1010 := Bool

def DPT_1010.Pack (d : DPT_1010) : List Nat :=
  packB1 d

def DPT_1010.Unpack (data : List Nat) (d : DPT_1010) : DPT_1010 × Option DPTError :=
  match unpackB1 data with
  | .ok b => (b, none)
  | .error e => (d, some e)

def DPT_1010.Unit (_ : DPT_1010) : String :=
  ""

def DPT_1010.toString (d : DPT_1010) : String :=
  if d then "Start" else "Stop"

/-- DPT 5.001 / Scaling: underlying Go type `float32`. -/
abbrev DPT_5001 := ℚ

def DPT_5001.Pack (d : DPT_5001) : List Nat :=
  if d ≤ 0 then
    packU8 0
  else if d ≥ 100 then
    packU8 255
  else
    packU8 (float32ToUint8 (d * 2.55))

def DPT_5001.Unpack (data : List Nat) (d : DPT_5001) : DPT_5001 × Option DPTError :=
  match unpackU8 data with
  | .error e => (d, some e)
  | .ok value => ((value : ℚ) / 2.55, none)

def DPT_5001.Unit (_ : DPT_5001) : String :=
  "%"

/-- DPT 5.003 / Angle: underlying Go type `float32`. -/
abbrev DPT_5003 := ℚ

def DPT_5003.Pack (d : DPT_5003) : List Nat :=
  let value := if d < 0 then 0 else d
  let value := if value > 360 then 360 else value
  let value := value / 360 * 255
  packU8 (float32ToUint8 value)

def DPT_5003.Unpack (data : List Nat) (d : DPT_5003) : DPT_5003 × Option DPTError :=
  match unpackU8 data with
  | .ok buf =>
    let value : ℚ := (buf : ℚ) * 360 / 255
    if value > 360 then
      (d, some .rangeError)
    else
      (value, none)
  | .error _ => (d, none)

def DPT_5003.Unit (_ : DPT_5003) : String :=
  "°"

/-- DPT 5.004 / Percent_U8: underlying Go type `float32`. -/
abbrev DPT_5004 := ℚ

def DPT_5004.Pack (d : DPT_5004) : List Nat :=
  let value := if d < 0 then 0 else d
  let value := if value > 255 then 255 else value
  packU8 (float32ToUint8 value)

def DPT_5004.Unpack (data : List Nat) (d : DPT_5004) : DPT_5004 × Option DPTError :=
  match unpackU8 data with
  | .ok buf =>
    let value : ℚ := (buf : ℚ)
    if value > 255 then
      (d, some .rangeError)
    else
      (value, none)
  | .error _ => (d, none)

def DPT_5004.Unit (_ : DPT_5004) : String :=
  "%"

/-- DPT 9.001 / Temperature: underlying Go type `float32`. -/
abbrev DPT_9001 := ℚ

def DPT_9001.Unpack (data : List Nat) (d : DPT_9001) : DPT_9001 × Option DPTError :=
  match unpackF16 data with
  | .ok buf =>
    if buf < -273 then
      (d, some .rangeError)
    else if buf > 670760 then
      (d, some .rangeError)
    else
      (buf, none)
  | .error _ => (d, none)

def DPT_9001.Unit (_ : DPT_9001) : String :=
  "°C"

/-- DPT 9.004 / Illumination: underlying Go type `float32`. -/
abbrev DPT_9004 := ℚ

def DPT_9004.Unpack (data : List Nat) (d : DPT_9004) : DPT_9004 × Option DPTError :=
  match unpackF16 data with
  | .ok buf =>
    if buf > 670760 then
      (d, some .rangeError)
    else
      (buf, none)
  | .error _ => (d, none)

def DPT_9004.Unit (_ : DPT_9004) : String :=
  "lux"

/-- Claim C1: the scaled and floating types silently swallow the length
error: `Unpack` on a wrong-length buffer returns no error and leaves the
receiver unchanged, while the boolean types and DPT 5.001 do surface
`LengthError`. -/
theorem length_error_swallowed :
    DPT_5003.Unpack [] (7 : ℚ) = (7, none) ∧
    DPT_5004.Unpack [1, 2] (3 : ℚ) = (3, none) ∧
    DPT_9001.Unpack [] (0 : ℚ) = (0, none) ∧
    DPT_9004.Unpack [1, 2, 3] (0 : ℚ) = (0, none) ∧
    DPT_1001.Unpack [] true = (true, some .lengthError) ∧
    DPT_5001.Unpack [] (7 : ℚ) = (7, some .lengthError) :=
  ⟨rfl, rfl, rfl, rfl, rfl, rfl⟩

/-- Claim C2: the buffer `[0x87, 0xFF]` decodes to the negative value
`-0.01`, yet `DPT_9004.Unpack` accepts it without a `RangeError`. -/
theorem dpt9004_accepts_negative :
    DPT_9004.Unpack [135, 255] (0 : ℚ) = (-1 / 100, none) ∧ (-1 / 100 : ℚ) < 0 := by
  constructor
  · norm_num [DPT_9004.Unpack, unpackF16]
  · norm_num

/-- Claim C3: after `DPT_9004.Unpack` on `[0x80, 0x01]` returns without
error, the stored value `-20.47` lies outside the declared range
`[0, 670760]`. -/
theorem dpt9004_stores_out_of_range :
    DPT_9004.Unpack [128, 1] (5 : ℚ) = (-2047 / 100, none) ∧
    ¬ (0 : ℚ) ≤ -2047 / 100 := by
  constructor
  · norm_num [DPT_9004.Unpack, unpackF16]
  · norm_num

/-- Claim C4, counterexample: `DPT_5001.Pack` truncates, so packing 50
yields the byte `0x7F`, not the claimed `0x80`. -/
theorem dpt5001_pack_50_not_128 :
    DPT_5001.Pack 50 = [127] ∧ DPT_5001.Pack 50 ≠ [128] := by
  have h : DPT_5001.Pack 50 = [127] := by
    norm_num [DPT_5001.Pack, float32ToUint8, packU8]
    rfl
  exact ⟨h, by rw [h]; simp⟩

/-- Claim C5: for every boolean-family type, unpacking the buffer
produced by packing a boolean succeeds and stores exactly that boolean,
whatever the receiver held before. -/
theorem bool_pack_unpack_roundtrip :
    ∀ b d0 : Bool,
      DPT_1001.Unpack (DPT_1001.Pack b) d0 = (b, none) ∧
      DPT_1002.Unpack (DPT_1002.Pack b) d0 = (b, none) ∧
      DPT_1003.Unpack (DPT_1003.Pack b) d0 = (b, none) ∧
      DPT_1009.Unpack (DPT_1009.Pack b) d0 = (b, none) ∧
      DPT_1010.Unpack (DPT_1010.Pack b) d0 = (b, none) := by
  decide

/-- Claim C9: every boolean-family type is unitless and renders
`true`/`false` as its documented pair of words. -/
theorem bool_unit_and_strings :
    (∀ b : Bool, DPT_1001.Unit b = "" ∧ DPT_1002.Unit b = "" ∧
      DPT_1003.Unit b = "" ∧ DPT_1009.Unit b = "" ∧ DPT_1010.Unit b = "") ∧
    DPT_1001.toString true = "On" ∧ DPT_1001.toString false = "Off" ∧
    DPT_1002.toString true = "True" ∧ DPT_1002.toString false = "False" ∧
    DPT_1003.toString true = "Enable" ∧ DPT_1003.toString false = "Disable" ∧
    DPT_1009.toString true = "Close" ∧ DPT_1009.toString false = "Open" ∧
    DPT_1010.toString true = "Start" ∧ DPT_1010.toString false = "Stop" := by
  refine ⟨fun b => ?_, ?_⟩
  · cases b <;> exact ⟨rfl, rfl, rfl, rfl, rfl⟩
  · repeat constructor

/-- Claim C4, amended: `DPT_5001.Pack` emits byte 0 for inputs at most 0,
byte 255 for inputs at least 100, and otherwise the truncation of
`d * 2.55`; in particular `Pack 0 = [0]`, `Pack 100 = [255]`,
`Pack 50 = [127]`. -/
theorem dpt5001_pack_formula :
    (∀ d : DPT_5001, d ≤ 0 → DPT_5001.Pack d = [0]) ∧
    (∀ d : DPT_5001, d ≥ 100 → DPT_5001.Pack d = [255]) ∧
    (∀ d : DPT_5001, 0 < d → d < 100 → DPT_5001.Pack d = [(⌊d * 2.55⌋).toNat]) ∧
    DPT_5001.Pack 0 = [0] ∧ DPT_5001.Pack 100 = [255] ∧ DPT_5001.Pack 50 = [127] := by
  have h50 : DPT_5001.Pack 50 = [127] := by
    norm_num [DPT_5001.Pack, float32ToUint8, packU8]
    rfl
  refine ⟨fun d hd => ?_, fun d hd => ?_, fun d hd0 hd1 => ?_, ?_, ?_, h50⟩
  · rw [DPT_5001.Pack, if_pos hd]; rfl
  · rw [DPT_5001.Pack, if_neg (by linarith), if_pos hd]; rfl
  · rw [DPT_5001.Pack, if_neg (by linarith), if_neg (by linarith)]; rfl
  · rw [DPT_5001.Pack, if_pos le_rfl]; rfl
  · rw [DPT_5001.Pack, if_neg (by norm_num), if_pos (by norm_num)]; rfl

theorem dpt5001_pack_formula_witness :
    DPT_5001.Pack 50 = [(⌊(50 : ℚ) * 2.55⌋).toNat] :=
  dpt5001_pack_formula.2.2.1 50 (by norm_num) (by norm_num)

/-- Claim C6: for every angle `d` in `[0, 360]`, packing with
`DPT_5003.Pack` and unpacking the resulting byte succeeds and yields a
value within one scale step `360 / 255` of `d`. -/
theorem dpt5003_pack_unpack_close (d d0 : ℚ) (h0 : 0 ≤ d) (h1 : d ≤ 360) :
    (DPT_5003.Unpack (DPT_5003.Pack d) d0).2 = none ∧
    |(DPT_5003.Unpack (DPT_5003.Pack d) d0).1 - d| ≤ 360 / 255 := by
  set t : ℚ := d / 360 * 255 with ht
  have ht0 : 0 ≤ t := by positivity
  have ht255 : t ≤ 255 := by rw [ht]; nlinarith
  have hfl0 : (0 : ℤ) ≤ ⌊t⌋ := Int.floor_nonneg.mpr ht0
  have hcast : ((⌊t⌋.toNat : ℕ) : ℚ) = ((⌊t⌋ : ℤ) : ℚ) := by
    exact_mod_cast congrArg Int.cast (Int.toNat_of_nonneg hfl0)
  have hle : ((⌊t⌋ : ℤ) : ℚ) ≤ t := Int.floor_le t
  have hlt : t < ((⌊t⌋ : ℤ) : ℚ) + 1 := Int.lt_floor_add_one t
  have hpack : DPT_5003.Pack d = [⌊t⌋.toNat] := by
    rw [DPT_5003.Pack, if_neg (not_lt.mpr h0), if_neg (not_lt.mpr h1)]
    rfl
  have hval : ¬ (360 : ℚ) < (⌊t⌋.toNat : ℚ) * 360 / 255 := by
    rw [hcast]
    nlinarith
  have hun : DPT_5003.Unpack [⌊t⌋.toNat] d0 = ((⌊t⌋.toNat : ℚ) * 360 / 255, none) := by
    rw [DPT_5003.Unpack]
    simp only [unpackU8, if_neg hval]
  rw [hpack, hun]
  refine ⟨rfl, ?_⟩
  dsimp only
  rw [abs_le]
  constructor
  · rw [hcast]
    nlinarith
  · rw [hcast]
    nlinarith

theorem dpt5003_pack_unpack_close_witness :
    (DPT_5003.Unpack (DPT_5003.Pack 180) 0).2 = none ∧
    |(DPT_5003.Unpack (DPT_5003.Pack 180) 0).1 - 180| ≤ 360 / 255 :=
  dpt5003_pack_unpack_close 180 0 (by norm_num) (by norm_num)

/-- Claim C7: decoding any byte with `DPT_5004.Unpack` succeeds, and
packing the decoded value and decoding again reproduces it exactly. -/
theorem dpt5004_unpack_pack_idempotent (x : ℕ) (d0 d1 : ℚ) (hx : x < 256) :
    DPT_5004.Unpack [x] d0 = ((x : ℚ), none) ∧
    DPT_5004.Unpack (DPT_5004.Pack ((DPT_5004.Unpack [x] d0).1)) d1 =
      ((DPT_5004.Unpack [x] d0).1, none) := by
  have hx255 : ((x : ℕ) : ℚ) ≤ 255 := by exact_mod_cast Nat.lt_succ_iff.mp hx
  have hu : ∀ r : ℚ, DPT_5004.Unpack [x] r = ((x : ℚ), none) := by
    intro r
    rw [DPT_5004.Unpack]
    simp only [unpackU8, if_neg (not_lt.mpr hx255)]
  have hp : DPT_5004.Pack ((x : ℚ)) = [x] := by
    simp only [DPT_5004.Pack, float32ToUint8, packU8]
    rw [if_neg (show ¬ (x : ℚ) < 0 from not_lt.mpr (Nat.cast_nonneg x)),
      if_neg (show ¬ (255 : ℚ) < (x : ℚ) from not_lt.mpr hx255)]
    simp [Int.floor_natCast]
  refine ⟨hu d0, ?_⟩
  rw [hu d0]
  dsimp only
  rw [hp]
  exact hu d1

theorem dpt5004_unpack_pack_idempotent_witness :
    DPT_5004.Unpack [200] 0 = ((200 : ℚ), none) ∧
    DPT_5004.Unpack (DPT_5004.Pack ((DPT_5004.Unpack [200] 0).1)) 1 =
      ((DPT_5004.Unpack [200] 0).1, none) :=
  dpt5004_unpack_pack_idempotent 200 0 1 (by norm_num)

/-- Claim C10: scaling any byte value below 256 yields at most 360, so
`DPT_5003.Unpack` never returns an error on any buffer of bytes (the
range branch is unreachable and length errors are swallowed). -/
theorem dpt5003_no_range_error :
    (∀ n : ℕ, n < 256 → (n : ℚ) * 360 / 255 ≤ 360) ∧
    ∀ (data : List Nat) (d0 : ℚ), (∀ x ∈ data, x < 256) →
      (DPT_5003.Unpack data d0).2 = none := by
  have key : ∀ n : ℕ, n < 256 → (n : ℚ) * 360 / 255 ≤ 360 := by
    intro n hn
    have h : (n : ℚ) ≤ 255 := by exact_mod_cast Nat.lt_succ_iff.mp hn
    nlinarith
  refine ⟨key, ?_⟩
  intro data d0 hdata
  rcases data with _ | ⟨x, _ | ⟨y, rest⟩⟩
  · rfl
  · have hx := key x (hdata x (by simp))
    rw [DPT_5003.Unpack]
    simp only [unpackU8, if_neg (not_lt.mpr hx)]
  · rfl

theorem dpt5003_no_range_error_witness :
    ((255 : ℚ) * 360 / 255 ≤ 360) ∧ (DPT_5003.Unpack [255] 0).2 = none :=
  ⟨dpt5003_no_range_error.1 255 (by norm_num),
   dpt5003_no_range_error.2 [255] 0 (by simp)⟩

/-- Claim C8: for every type, whenever `Unpack` returns an error the
receiver keeps its previous value. -/
theorem unpack_error_leaves_receiver (data : List Nat) (b : Bool) (q : ℚ) :
    ((DPT_1001.Unpack data b).2.isSome = true → (DPT_1001.Unpack data b).1 = b) ∧
    ((DPT_1002.Unpack data b).2.isSome = true → (DPT_1002.Unpack data b).1 = b) ∧
    ((DPT_1003.Unpack data b).2.isSome = true → (DPT_1003.Unpack data b).1 = b) ∧
    ((DPT_1009.Unpack data b).2.isSome = true → (DPT_1009.Unpack data b).1 = b) ∧
    ((DPT_1010.Unpack data b).2.isSome = true → (DPT_1010.Unpack data b).1 = b) ∧
    ((DPT_5001.Unpack data q).2.isSome = true → (DPT_5001.Unpack data q).1 = q) ∧
    ((DPT_5003.Unpack data q).2.isSome = true → (DPT_5003.Unpack data q).1 = q) ∧
    ((DPT_5004.Unpack data q).2.isSome = true → (DPT_5004.Unpack data q).1 = q) ∧
    ((DPT_9001.Unpack data q).2.isSome = true → (DPT_9001.Unpack data q).1 = q) ∧
    ((DPT_9004.Unpack data q).2.isSome = true → (DPT_9004.Unpack data q).1 = q) := by
  refine ⟨?_, ?_, ?_, ?_, ?_, ?_, ?_, ?_, ?_, ?_⟩
  · rw [DPT_1001.Unpack]; cases unpackB1 data <;> simp
  · rw [DPT_1002.Unpack]; cases unpackB1 data <;> simp
  · rw [DPT_1003.Unpack]; cases unpackB1 data <;> simp
  · rw [DPT_1009.Unpack]; cases unpackB1 data <;> simp
  · rw [DPT_1010.Unpack]; cases unpackB1 data <;> simp
  · rw [DPT_5001.Unpack]; cases unpackU8 data <;> simp
  · rw [DPT_5003.Unpack]
    cases unpackU8 data with
    | error e => simp
    | ok v => dsimp only; split_ifs <;> simp
  · rw [DPT_5004.Unpack]
    cases unpackU8 data with
    | error e => simp
    | ok v => dsimp only; split_ifs <;> simp
  · rw [DPT_9001.Unpack]
    cases unpackF16 data with
    | error e => simp
    | ok v => dsimp only; split_ifs <;> simp
  · rw [DPT_9004.Unpack]
    cases unpackF16 data with
    | error e => simp
    | ok v => dsimp only; split_ifs <;> simp

theorem unpack_error_leaves_receiver_witness :
    (DPT_9004.Unpack [127, 255] (3 : ℚ)).1 = 3 ∧
    (DPT_1001.Unpack [] true).1 = true :=
  ⟨(unpack_error_leaves_receiver [127, 255] true 3).2.2.2.2.2.2.2.2.2
      (by norm_num [DPT_9004.Unpack, unpackF16]),
   (unpack_error_leaves_receiver [] true 3).1 (by rfl)⟩
